import Mathlib

/-!
Verification of the DataForge core pipeline (src/dataforge.py) against its
specification.  The three stages are shallowly embedded:

* `DataIngester.ingest`   — the `ingest(source_type, input_data, chunk_size)`
  static method.  The external JSON parser (`json.loads`) is a parameter
  `parse : String → Option JVal` (standard parse/fail semantics); the external
  tabular reader (`pd.read_excel`) is modelled by characterising a readable
  stream by the outcome reading it produces (`ExcelStream`): either a parsed
  table or a raised exception.  A `SourceInput.excel none` input is an object
  without a `read` attribute.  The `Except String` result records whether an
  exception escapes `ingest` (the text branch has a catch-all handler and
  never errors; the excel branch has none, so a reader error propagates).
* `Transformer.transform` — the `transform(gpu_mode, chunks)` static method.
  Python iterates its `chunks` argument with a `for` loop, so a bare
  non-iterable scalar (a parsed JSON number/bool/null returned unchanged by
  the text branch) raises `TypeError`, modelled as `none` from `pyIter`;
  a bare string iterates character by character.
* `InsightEngine.generate_bi` — numeric-column selection
  (`df.select_dtypes(include=["number"])`), per-column means
  (`describe().loc["mean"]`, which skips NaN), the mean of means
  (`Series.mean`, which also skips NaN and is NaN on an all-NaN series),
  and the two result strings.

Tables model pandas DataFrames: an ordered column list plus rows of cells,
where `Cell.na` is NaN (the fill value `pd.concat` uses for columns absent
from a source frame).  A column counts as numeric exactly when every cell is
a number or NaN — matching pandas dtype inference on the frames this
pipeline builds (any string/bool/null/nested cell forces object or bool
dtype, which `select_dtypes(include=["number"])` rejects, while an
all-NaN-filled column is float64).  Numbers are rationals; `fmt2` models the
Python format `f"{x:.2f}"` (exact half-up rounding of the rational; the
binary-float half-to-even corner cases are below the resolution of every
statement proved here) and `"nan"` is what that format prints for NaN.
-/

/-- A parsed JSON value, the output type of the external `json.loads`
collaborator.  An `obj` is a Python dict (insertion-ordered fields). -/
inductive JVal where
  | null : JVal
  | bool : Bool → JVal
  | num : ℚ → JVal
  | str : String → JVal
  | arr : List JVal → JVal
  | obj : List (String × JVal) → JVal

/-- One cell of a pandas DataFrame: a carried value or NaN (`na`). -/
inductive Cell where
  | val : JVal → Cell
  | na : Cell

/-- A pandas DataFrame: ordered column labels and rows of cells.  Integer
column labels (from wrapping a bare scalar or list) are rendered as their
decimal strings. -/
structure Table where
  cols : List String
  rows : List (List Cell)

/-- One element of the list `ingest` returns: either a Python object parsed
from JSON text (a record) or a DataFrame slice of the excel table. -/
inductive Chunk where
  | record : JVal → Chunk
  | df : Table → Chunk

/-- A readable tabular stream, characterised by the outcome `pd.read_excel`
produces on it: a parsed table, or a raised exception (for content the
external reader rejects). -/
inductive ExcelStream where
  | ok : Table → ExcelStream
  | raises : String → ExcelStream

/-- The `(source_type, input_data)` argument pair of `ingest`:
`text` carries the text blob, `excel` carries the upload —
`none` when the object has no `read` attribute. -/
inductive SourceInput where
  | text : String → SourceInput
  | excel : Option ExcelStream → SourceInput

/-- The value `ingest` returns on the text path: a Python list of chunks, or
the parsed JSON value itself when it is neither a dict nor a list
(`return [data] if isinstance(data, dict) else data`). -/
inductive IngestResult where
  | chunkList : List Chunk → IngestResult
  | bare : JVal → IngestResult

namespace DataIngester

/-- The slice list `[df_full.iloc[i:i+chunk_size] for i in range(0, len(df_full), chunk_size)]`.
For `chunk_size > 0`, Python `range(0, n, c)` is `[0, c, 2c, …]` below `n`,
of length `⌈n / c⌉ = (n + c - 1) / c`. -/
def chunksOf (df_full : Table) (chunk_size : ℕ) : List Chunk :=
  ((List.range ((df_full.rows.length + chunk_size - 1) / chunk_size)).map
      (fun k => k * chunk_size)).map
    (fun i => Chunk.df ⟨df_full.cols, (df_full.rows.drop i).take chunk_size⟩)

/-- The rows held by a chunk (used to state that concatenating all excel
chunks reproduces the source rows). -/
def chunkRows : Chunk → List (List Cell)
  | Chunk.df t => t.rows
  | Chunk.record _ => []

/-- `DataIngester.ingest(source_type, input_data, chunk_size=10000)`.
Text branch: `json.loads` inside `try`, returning `[data]` for a dict,
the parsed value itself otherwise, and `[{"raw": input_data}]` on any parse
failure (the bare `except:` swallows everything, so this branch never
raises).  Excel branch: an input without `read` yields `[]`; otherwise
`pd.read_excel` runs unguarded, so its exception escapes (`Except.error`),
and on success the full table is sliced into `chunk_size`-row chunks. -/
def ingest (parse : String → Option JVal) (src : SourceInput) (chunk_size : ℕ) :
    Except String IngestResult :=
  match src with
  | SourceInput.text input_data =>
      match parse input_data with
      | some (JVal.obj fields) =>
          Except.ok (IngestResult.chunkList [Chunk.record (JVal.obj fields)])
      | some (JVal.arr elems) =>
          Except.ok (IngestResult.chunkList (elems.map Chunk.record))
      | some v => Except.ok (IngestResult.bare v)
      | none =>
          Except.ok (IngestResult.chunkList
            [Chunk.record (JVal.obj [("raw", JVal.str input_data)])])
  | SourceInput.excel none => Except.ok (IngestResult.chunkList [])
  | SourceInput.excel (some (ExcelStream.raises msg)) => Except.error msg
  | SourceInput.excel (some (ExcelStream.ok df_full)) =>
      Except.ok (IngestResult.chunkList (chunksOf df_full chunk_size))

end DataIngester

/-- Column resolution of `pd.concat` (outer join, `sort=False`): the first
argument followed by the labels of the second not already present, keeping
first-appearance order. -/
def unionCols (xs ys : List String) : List String :=
  xs ++ ys.filter (fun c => decide (c ∉ xs))

/-- The union of the column lists of a list of frames, in first-appearance
order (what `pd.concat` gives the combined frame). -/
def colsUnion : List Table → List String
  | [] => []
  | t :: ts => unionCols t.cols (colsUnion ts)

/-- Label-based lookup of a cell in a row, given the column list the row is
aligned to; absent labels read as NaN. -/
def rowCell : List String → List Cell → String → Cell
  | [], _, _ => Cell.na
  | _ :: _, [], _ => Cell.na
  | c0 :: cs, v :: vs, c => if c0 = c then v else rowCell cs vs c

/-- Align a row from a frame with columns `oldCols` to the column list
`newCols`, filling NaN under columns the source frame lacks — the row-level
action of `pd.concat`. -/
def reindexRow (oldCols : List String) (row : List Cell) (newCols : List String) :
    List Cell :=
  newCols.map (fun c => rowCell oldCols row c)

/-- `pd.concat(ts)`: columns are the first-appearance union, rows are all
source rows in order, each aligned to the union columns with NaN fill. -/
def concatAll (ts : List Table) : Table :=
  ⟨colsUnion ts,
   ts.flatMap (fun t => t.rows.map (fun r => reindexRow t.cols r (colsUnion ts)))⟩

namespace Transformer

/-- The body of the `for` loop: an excel chunk is already a DataFrame and is
used directly; anything else goes through `pd.DataFrame([chunk])` — a dict
becomes a one-row frame keyed by its fields, a list becomes a one-row frame
with integer column labels, and a bare scalar becomes a one-row frame with
the single column `0`. -/
def chunkToDf : Chunk → Table
  | Chunk.df t => t
  | Chunk.record (JVal.obj fields) =>
      ⟨fields.map Prod.fst, [fields.map (fun p => Cell.val p.2)]⟩
  | Chunk.record (JVal.arr elems) =>
      ⟨(List.range elems.length).map (fun i => toString i), [elems.map Cell.val]⟩
  | Chunk.record v => ⟨["0"], [[Cell.val v]]⟩

/-- Python iteration of the `chunks` argument: a list yields its elements, a
bare string yields its characters (each a one-character string), and a bare
number/bool/None is not iterable — the `for` loop raises `TypeError`,
modelled as `none`. -/
def pyIter : IngestResult → Option (List Chunk)
  | IngestResult.chunkList cs => some cs
  | IngestResult.bare (JVal.str s) =>
      some (s.toList.map (fun ch => Chunk.record (JVal.str ch.toString)))
  | IngestResult.bare _ => none

/-- The loop and final concat of `transform` on an already-obtained chunk
list: wrap every chunk as a frame, then `pd.concat(all_df) if all_df else
pd.DataFrame()`. -/
def transformChunks (chunks : List Chunk) : Table :=
  let all_df := chunks.map chunkToDf
  if all_df.isEmpty then ⟨[], []⟩ else concatAll all_df

/-- `Transformer.transform(gpu_mode, chunks)`.  The `gpu_mode` flag is never
read by the body.  Iteration of `chunks` may raise `TypeError` (bare
non-iterable scalar), hence the `Option`. -/
def transform (gpu_mode : Bool) (chunks : IngestResult) : Option Table :=
  (pyIter chunks).map transformChunks

end Transformer

/-- Python `str.title()` over a character list; the flag records whether the
previous character was alphabetic. -/
def pyTitleAux : Bool → List Char → List Char
  | _, [] => []
  | prevCased, ch :: rest =>
      (if prevCased then ch.toLower else ch.toUpper) :: pyTitleAux ch.isAlpha rest

/-- Python `str.title()` (ASCII behaviour): first letter of every word
upper-cased, the rest lower-cased. -/
def pyTitle (s : String) : String := ⟨pyTitleAux false s.toList⟩

/-- Round a rational to the nearest integer multiple of 1/100 (half away
from zero rounds up), as an integer count of hundredths: the value
`f"{x:.2f}"` prints. -/
def roundHundredths (q : ℚ) : ℤ := Int.fdiv (200 * q.num + q.den) (2 * q.den)

/-- The Python float format `f"{x:.2f}"` on an exact rational. -/
def fmt2 (q : ℚ) : String :=
  let n := roundHundredths q
  let m := n.natAbs
  (if n < 0 then "-" else "") ++ toString (m / 100) ++ "." ++
    (if m % 100 < 10 then "0" else "") ++ toString (m % 100)

/-- Format the headline metric: a NaN float prints as `nan` under `:.2f`. -/
def fmtFloat : Option ℚ → String
  | some q => fmt2 q
  | none => "nan"

/-- Is this cell acceptable in a numeric (`select_dtypes(include=["number"])`)
column: a number or NaN.  Any string, bool, None or nested value forces a
non-number dtype for the frames this pipeline builds. -/
def isNumericCell : Cell → Bool
  | Cell.val (JVal.num _) => true
  | Cell.na => true
  | _ => false

/-- Positions of the columns `df.select_dtypes(include=["number"])` keeps,
in original column order. -/
def numericIdx (df : Table) : List ℕ :=
  (List.range df.cols.length).filter
    (fun j => df.rows.all (fun r => isNumericCell (r.getD j Cell.na)))

/-- The numeric value of a cell, if any. -/
def cellNum : Cell → Option ℚ
  | Cell.val (JVal.num q) => some q
  | _ => none

/-- The pandas mean of column `j` of `df`: NaN entries are skipped, and a
column with no non-NaN value has mean NaN (`none`). -/
def colMean (df : Table) (j : ℕ) : Option ℚ :=
  let vs := df.rows.filterMap (fun r => cellNum (r.getD j Cell.na))
  if vs.isEmpty then none else some (vs.sum / (vs.length : ℚ))

/-- `Series.mean` of a float series that may hold NaN entries: NaN entries
are skipped; the mean of a series with no non-NaN entry is NaN (`none`). -/
def listMeanOpt (ms : List (Option ℚ)) : Option ℚ :=
  let vs := ms.filterMap id
  if vs.isEmpty then none else some (vs.sum / (vs.length : ℚ))

/-- The `px.bar` figure: x data, y data (floats, possibly NaN), title. -/
structure Chart where
  xs : List String
  ys : List (Option ℚ)
  title : String

namespace InsightEngine

/-- `InsightEngine.generate_bi(df, domain="generic")`.  `numeric_df.empty`
holds when either axis has length 0 (no numeric column, or no row at all).
On the main path `describe()` of a non-empty numeric frame always carries a
`mean` row, so the `if "mean" in summary.index` else-arm computes the same
per-column means and is behaviourally identical; the per-column means and
the mean of means both skip NaN.  `mean_values` has one entry per numeric
column, so on this path it is never empty and the `else 0` default of
`avg_metric` is unreachable; it is modelled literally all the same. -/
def generate_bi (df : Table) (domain : String) : Chart × String :=
  let nIdx := numericIdx df
  if nIdx.isEmpty || df.rows.isEmpty then
    (⟨[], [], pyTitle domain ++ " Insights: No numeric data"⟩,
     "Add numbers for stats!")
  else
    let mean_values := nIdx.map (fun j => colMean df j)
    let names := nIdx.map (fun j => df.cols.getD j "")
    let avg_metric := if mean_values.isEmpty then some (0 : ℚ)
      else listMeanOpt mean_values
    (⟨names, mean_values, pyTitle domain ++ " Mean Insights"⟩,
     "Key Metric: Avg Mean " ++ fmtFloat avg_metric ++ " (Numerics: " ++
       toString nIdx.length ++ " cols)")

end InsightEngine

/-! ### General lemmas about the embedded operations -/

/-- Membership in the `pd.concat` column union is membership in either side. -/
theorem mem_unionCols {c : String} {xs ys : List String} :
    c ∈ unionCols xs ys ↔ c ∈ xs ∨ c ∈ ys := by
  simp only [unionCols, List.mem_append, List.mem_filter, decide_eq_true_eq]
  tauto

theorem unionCols_nil_left (ys : List String) : unionCols [] ys = ys := by
  simp [unionCols]

theorem unionCols_nil_right (xs : List String) : unionCols xs [] = xs := by
  simp [unionCols]

theorem unionCols_assoc (xs ys zs : List String) :
    unionCols (unionCols xs ys) zs = unionCols xs (unionCols ys zs) := by
  simp only [unionCols, List.filter_append, List.filter_filter, List.append_assoc]
  congr 2
  refine List.filter_congr ?_
  intro c _
  by_cases hx : c ∈ xs <;> by_cases hy : c ∈ ys <;>
    simp [hx, hy, List.mem_append, List.mem_filter]

theorem colsUnion_append (l1 l2 : List Table) :
    colsUnion (l1 ++ l2) = unionCols (colsUnion l1) (colsUnion l2) := by
  induction l1 with
  | nil => simp [colsUnion, unionCols_nil_left]
  | cons t ts ih =>
      rw [List.cons_append]
      show unionCols t.cols (colsUnion (ts ++ l2))
          = unionCols (unionCols t.cols (colsUnion ts)) (colsUnion l2)
      rw [ih, unionCols_assoc]

/-- A column of some member frame is a column of the concatenated frame. -/
theorem mem_colsUnion_of_mem {t : Table} {ts : List Table} (ht : t ∈ ts) {c : String}
    (hc : c ∈ t.cols) : c ∈ colsUnion ts := by
  induction ts with
  | nil => cases ht
  | cons t0 ts ih =>
      rcases List.mem_cons.mp ht with h | h
      · subst h; exact mem_unionCols.mpr (Or.inl hc)
      · exact mem_unionCols.mpr (Or.inr (ih h))

/-- Looking a label up in a row built by mapping a function over the very
label list gives that function's value (or NaN for an absent label). -/
theorem rowCell_map (f : String → Cell) (cs : List String) (c : String) :
    rowCell cs (cs.map f) c = if c ∈ cs then f c else Cell.na := by
  induction cs with
  | nil => simp [rowCell]
  | cons c0 cs ih =>
      simp only [List.map_cons, rowCell]
      by_cases h : c0 = c
      · subst h; simp
      · have h2 : ¬ (c = c0) := fun hc => h hc.symm
        simp [h, ih, List.mem_cons, h2]

/-- A label absent from the column list reads as NaN. -/
theorem rowCell_not_mem {c : String} {cs : List String} (r : List Cell) (h : c ∉ cs) :
    rowCell cs r c = Cell.na := by
  induction cs generalizing r with
  | nil => cases r <;> rfl
  | cons c0 cs ih =>
      cases r with
      | nil => rfl
      | cons v vs =>
          have h0 : ¬ (c0 = c) := fun hc => h (hc ▸ List.mem_cons_self c0 cs)
          simpa [rowCell, h0] using ih vs (fun hc => h (List.mem_cons_of_mem c0 hc))

theorem rowCell_reindexRow (ct : List String) (r : List Cell) (cs : List String)
    (c : String) :
    rowCell cs (reindexRow ct r cs) c = if c ∈ cs then rowCell ct r c else Cell.na :=
  rowCell_map (fun c => rowCell ct r c) cs c

/-- Re-aligning an already aligned row again is the same as aligning the
original row directly, provided the intermediate column list covers the
source columns. -/
theorem reindexRow_reindexRow (ct cs1 cs2 : List String) (r : List Cell)
    (h : ∀ c, c ∈ ct → c ∈ cs1) :
    reindexRow cs1 (reindexRow ct r cs1) cs2 = reindexRow ct r cs2 := by
  unfold reindexRow
  refine List.map_congr_left ?_
  intro c _
  rw [rowCell_map (fun c => rowCell ct r c) cs1 c]
  by_cases hc : c ∈ cs1
  · simp [hc]
  · simp [hc, rowCell_not_mem r (fun hct => hc (h c hct))]

/-- `pd.concat` over a split list: the combined frame has the union of the
two sides' columns, and its rows are the first concatenation's rows followed
by the second's, each re-aligned to the combined columns. -/
theorem concatAll_append (l1 l2 : List Table) :
    concatAll (l1 ++ l2) =
      ⟨unionCols (colsUnion l1) (colsUnion l2),
       (concatAll l1).rows.map
           (fun r => reindexRow (colsUnion l1) r (colsUnion (l1 ++ l2)))
         ++ (concatAll l2).rows.map
           (fun r => reindexRow (colsUnion l2) r (colsUnion (l1 ++ l2)))⟩ := by
  have side : ∀ (l l' : List Table), (∀ t, t ∈ l → ∀ c, c ∈ t.cols → c ∈ colsUnion l) →
      l.flatMap (fun t => t.rows.map (fun r => reindexRow t.cols r (colsUnion l')))
        = (l.flatMap (fun t => t.rows.map (fun r => reindexRow t.cols r (colsUnion l)))).map
            (fun r => reindexRow (colsUnion l) r (colsUnion l')) := by
    intro l l' hsub
    rw [List.map_flatMap]
    refine List.flatMap_congr ?_
    intro t ht
    rw [List.map_map]
    refine (List.map_congr_left ?_).symm
    intro r _
    exact reindexRow_reindexRow t.cols (colsUnion l) (colsUnion l') r (hsub t ht)
  unfold concatAll
  refine congrArg₂ Table.mk (colsUnion_append l1 l2) ?_
  rw [List.flatMap_append]
  refine congrArg₂ List.append ?_ ?_
  · exact side l1 (l1 ++ l2) (fun t ht c hc => mem_colsUnion_of_mem ht hc)
  · exact side l2 (l1 ++ l2) (fun t ht c hc => mem_colsUnion_of_mem ht hc)

/-- The guard `if all_df else pd.DataFrame()` collapses: concatenating no
frames is the empty frame anyway. -/
theorem transformChunks_eq (chunks : List Chunk) :
    Transformer.transformChunks chunks = concatAll (chunks.map Transformer.chunkToDf) := by
  cases chunks with
  | nil => rfl
  | cons c cs => rfl

/-- The empty branch of `generate_bi`: `numeric_df.empty` holds (no numeric
column, or no row), so the placeholder chart and fixed headline come back. -/
theorem generate_bi_empty (df : Table) (domain : String)
    (h : ((numericIdx df).isEmpty || df.rows.isEmpty) = true) :
    InsightEngine.generate_bi df domain =
      (⟨[], [], pyTitle domain ++ " Insights: No numeric data"⟩,
       "Add numbers for stats!") := by
  unfold InsightEngine.generate_bi
  simp [h]

/-- The main branch of `generate_bi`: chart of per-column means plus the
headline string built from the mean of means. -/
theorem generate_bi_pos (df : Table) (domain : String)
    (h : ((numericIdx df).isEmpty || df.rows.isEmpty) = false) :
    InsightEngine.generate_bi df domain =
      (⟨(numericIdx df).map (fun j => df.cols.getD j ""),
        (numericIdx df).map (fun j => colMean df j),
        pyTitle domain ++ " Mean Insights"⟩,
       "Key Metric: Avg Mean " ++
         fmtFloat (if ((numericIdx df).map (fun j => colMean df j)).isEmpty
             then some (0 : ℚ)
             else listMeanOpt ((numericIdx df).map (fun j => colMean df j))) ++
         " (Numerics: " ++ toString (numericIdx df).length ++ " cols)") := by
  unfold InsightEngine.generate_bi
  simp [h]

/-- Concatenating successive `c`-row slices starting at multiples of `c`
rebuilds the prefix of length `k * c`. -/
theorem flatMap_range_take {α : Type} (l : List α) (c k : ℕ) :
    (List.range k).flatMap (fun i => (l.drop (i * c)).take c) = l.take (k * c) := by
  induction k with
  | zero => simp
  | succ k ih =>
      rw [List.range_succ, List.flatMap_append, ih]
      simp only [List.flatMap_cons, List.flatMap_nil, List.append_nil]
      rw [← List.take_add]
      ring_nf

/-- The ceiling count times the chunk size covers the list. -/
theorem le_ceil_mul (n c : ℕ) (hc : 0 < c) : n ≤ ((n + c - 1) / c) * c := by
  rw [Nat.mul_comm]
  have h1 := Nat.div_add_mod (n + c - 1) c
  have h2 := Nat.mod_lt (n + c - 1) hc
  generalize hK : (n + c - 1) / c = K at h1
  generalize hr : (n + c - 1) % c = r at h1 h2
  generalize hm : c * K = m at h1 ⊢
  omega

/-- Concatenating all excel chunks in order reproduces the source rows. -/
theorem chunksOf_flatMap_rows (t : Table) (c : ℕ) (hc : 0 < c) :
    (DataIngester.chunksOf t c).flatMap DataIngester.chunkRows = t.rows := by
  unfold DataIngester.chunksOf
  rw [List.map_map, List.flatMap_map]
  show (List.range ((t.rows.length + c - 1) / c)).flatMap
      (fun i => (t.rows.drop (i * c)).take c) = t.rows
  rw [flatMap_range_take]
  exact List.take_of_length_le (le_ceil_mul t.rows.length c hc)

/-! ### Claim theorems -/

/-- Claim C2: for every tabular (excel) source with `N` rows and every chunk
size `C > 0`, `ingest` returns exactly `⌈N/C⌉` batches — an empty sequence
when `N = 0`, exactly one batch when `N = C` — each batch being the
contiguous row range starting at a multiple of `C` with at most `C` rows,
and concatenating the batches' rows in order reproduces the `N` rows. -/
theorem claim_c2 (parse : String → Option JVal) (t : Table) (c : ℕ) (hc : 0 < c) :
    DataIngester.ingest parse (SourceInput.excel (some (ExcelStream.ok t))) c
      = Except.ok (IngestResult.chunkList (DataIngester.chunksOf t c))
  ∧ (DataIngester.chunksOf t c).length = (t.rows.length + c - 1) / c
  ∧ DataIngester.chunksOf t c
      = (List.range ((t.rows.length + c - 1) / c)).map
          (fun k => Chunk.df ⟨t.cols, (t.rows.drop (k * c)).take c⟩)
  ∧ (∀ ch, ch ∈ DataIngester.chunksOf t c → ∀ tb, ch = Chunk.df tb →
      tb.rows.length ≤ c)
  ∧ (DataIngester.chunksOf t c).flatMap DataIngester.chunkRows = t.rows
  ∧ (t.rows.length = 0 → DataIngester.chunksOf t c = [])
  ∧ (t.rows.length = c → (DataIngester.chunksOf t c).length = 1) := by
  refine ⟨rfl, by simp [DataIngester.chunksOf], ?_, ?_, chunksOf_flatMap_rows t c hc, ?_, ?_⟩
  · unfold DataIngester.chunksOf
    rw [List.map_map]
    rfl
  · intro ch hch tb htb
    rcases List.mem_map.mp hch with ⟨i, _, rfl⟩
    injection htb with h
    subst h
    exact List.length_take_le ..
  · intro h0
    unfold DataIngester.chunksOf
    rw [h0]
    have h1 : (0 + c - 1) / c = 0 := Nat.div_eq_of_lt (by omega)
    rw [h1]
    rfl
  · intro hnc
    have h1 : (DataIngester.chunksOf t c).length = (t.rows.length + c - 1) / c := by
      simp [DataIngester.chunksOf]
    rw [h1, hnc]
    exact Nat.div_eq_of_lt_le (by omega) (by omega)

/-- Claim C2 witness: a three-row table with chunk size 2 — the hypotheses
hold and concatenating the chunks gives back the rows. -/
theorem claim_c2_witness :
    0 < 2
  ∧ (DataIngester.chunksOf
        ⟨["a"], [[Cell.val (JVal.num 1)], [Cell.val (JVal.num 2)], [Cell.val (JVal.num 3)]]⟩
        2).flatMap DataIngester.chunkRows
      = [[Cell.val (JVal.num 1)], [Cell.val (JVal.num 2)], [Cell.val (JVal.num 3)]] :=
  ⟨by decide,
   (claim_c2 (fun _ => none)
      ⟨["a"], [[Cell.val (JVal.num 1)], [Cell.val (JVal.num 2)], [Cell.val (JVal.num 3)]]⟩
      2 (by decide)).2.2.2.2.1⟩

/-- Claim C3: for every text input whose parse fails, `ingest` returns one
batch holding exactly the one record `{"raw": originalText}`; and on the
text path `ingest` never raises — for every parser, input and chunk size the
result is never an error (the bare `except:` swallows every failure). -/
theorem claim_c3 (parse : String → Option JVal) (input : String) (c : ℕ)
    (h : parse input = none) :
    DataIngester.ingest parse (SourceInput.text input) c
      = Except.ok (IngestResult.chunkList
          [Chunk.record (JVal.obj [("raw", JVal.str input)])])
  ∧ (∀ (p2 : String → Option JVal) (s : String) (c2 : ℕ) (msg : String),
      DataIngester.ingest p2 (SourceInput.text s) c2 ≠ Except.error msg) := by
  constructor
  · simp [DataIngester.ingest, h]
  · intro p2 s c2 msg
    cases hp : p2 s with
    | none => simp [DataIngester.ingest, hp]
    | some v => cases v <;> simp [DataIngester.ingest, hp]

/-- Claim C3 witness: a parser that fails on the concrete input `not json`
produces the single raw record. -/
theorem claim_c3_witness :
    (fun (_ : String) => (none : Option JVal)) "not json" = none
  ∧ DataIngester.ingest (fun _ => none) (SourceInput.text "not json") 10000
      = Except.ok (IngestResult.chunkList
          [Chunk.record (JVal.obj [("raw", JVal.str "not json")])]) :=
  ⟨rfl, (claim_c3 (fun _ => none) "not json" 10000 rfl).1⟩

/-- Claim C4: for every text input that parses as a JSON object, `ingest`
returns exactly one batch containing exactly one record equal to the parsed
object. -/
theorem claim_c4 (parse : String → Option JVal) (input : String) (c : ℕ)
    (fields : List (String × JVal)) (h : parse input = some (JVal.obj fields)) :
    DataIngester.ingest parse (SourceInput.text input) c
      = Except.ok (IngestResult.chunkList [Chunk.record (JVal.obj fields)]) := by
  simp [DataIngester.ingest, h]

/-- Claim C4 witness: a parser producing the object with field `k = 1`. -/
theorem claim_c4_witness :
    (fun (_ : String) => some (JVal.obj [("k", JVal.num 1)])) "input" =
        some (JVal.obj [("k", JVal.num 1)])
  ∧ DataIngester.ingest (fun _ => some (JVal.obj [("k", JVal.num 1)]))
        (SourceInput.text "input") 10000
      = Except.ok (IngestResult.chunkList [Chunk.record (JVal.obj [("k", JVal.num 1)])]) :=
  ⟨rfl, claim_c4 (fun _ => some (JVal.obj [("k", JVal.num 1)])) "input" 10000
    [("k", JVal.num 1)] rfl⟩

/-- Claim C7 counterexample: a readable stream whose content the external
reader rejects (for instance a text file handed to `pd.read_excel`) makes
`ingest` propagate the exception — refuting the claim that `ingest` never
raises for `sourceKind` excel. -/
theorem claim_c7_counterexample :
    DataIngester.ingest (fun _ => none)
        (SourceInput.excel (some (ExcelStream.raises "ValueError"))) 10000
      = Except.error "ValueError" := rfl

/-- Claim C7 amended: an input without a `read` attribute yields an empty
sequence without error, and a readable stream the reader accepts yields the
chunk list without error; but when the reader raises on a readable stream
the exception escapes `ingest` unhandled. -/
theorem claim_c7 (parse : String → Option JVal) (c : ℕ) :
    DataIngester.ingest parse (SourceInput.excel none) c
      = Except.ok (IngestResult.chunkList [])
  ∧ (∀ t : Table,
      DataIngester.ingest parse (SourceInput.excel (some (ExcelStream.ok t))) c
        = Except.ok (IngestResult.chunkList (DataIngester.chunksOf t c)))
  ∧ (∀ msg : String,
      DataIngester.ingest parse (SourceInput.excel (some (ExcelStream.raises msg))) c
        = Except.error msg) :=
  ⟨rfl, fun _ => rfl, fun _ => rfl⟩

/-- Claim C10: a text input parsing to a JSON scalar (number, string, bool
or null — neither object nor array) is returned by `ingest` as the bare
parsed value, not as a sequence of batches; and when that scalar is a
string, `transform` iterates it character by character (each character
wrapped as its own one-element record). -/
theorem claim_c10 (parse : String → Option JVal) (input : String) (c : ℕ) (v : JVal)
    (h : parse input = some v)
    (hobj : ∀ fields, v ≠ JVal.obj fields) (harr : ∀ elems, v ≠ JVal.arr elems) :
    DataIngester.ingest parse (SourceInput.text input) c
      = Except.ok (IngestResult.bare v)
  ∧ (∀ (s : String) (g : Bool), v = JVal.str s →
      Transformer.transform g (IngestResult.bare v)
        = some (Transformer.transformChunks
            (s.toList.map (fun ch => Chunk.record (JVal.str ch.toString))))) := by
  constructor
  · cases v with
    | obj fields => exact absurd rfl (hobj fields)
    | arr elems => exact absurd rfl (harr elems)
    | null => simp [DataIngester.ingest, h]
    | bool b => simp [DataIngester.ingest, h]
    | num q => simp [DataIngester.ingest, h]
    | str s => simp [DataIngester.ingest, h]
  · intro s g hs
    subst hs
    rfl

/-- Claim C10 witness: a parser producing the bare string scalar `ab`; the
result is the bare value and `transform` iterates its two characters. -/
theorem claim_c10_witness :
    (fun (_ : String) => some (JVal.str "ab")) "input" = some (JVal.str "ab")
  ∧ DataIngester.ingest (fun _ => some (JVal.str "ab")) (SourceInput.text "input") 10000
      = Except.ok (IngestResult.bare (JVal.str "ab"))
  ∧ Transformer.transform false (IngestResult.bare (JVal.str "ab"))
      = some (Transformer.transformChunks
          ("ab".toList.map (fun ch => Chunk.record (JVal.str ch.toString)))) := by
  refine ⟨rfl, ?_, ?_⟩
  · exact (claim_c10 (fun _ => some (JVal.str "ab")) "input" 10000 (JVal.str "ab") rfl
      (fun _ h => JVal.noConfusion h) (fun _ h => JVal.noConfusion h)).1
  · exact (claim_c10 (fun _ => some (JVal.str "ab")) "input" 10000 (JVal.str "ab") rfl
      (fun _ h => JVal.noConfusion h) (fun _ h => JVal.noConfusion h)).2 "ab" false rfl

/-- Claim C5: `normalize` (the transform stage) distributes over batch
concatenation — the combined table's columns are the `pd.concat` union of
the two parts' columns (membership-wise the set union), and its rows are the
first part's rows followed by the second part's rows, each re-aligned to the
union columns with null under the columns its part lacks, so no row is ever
dropped; on the concrete batches with columns `{a,b}` and `{b,c}` the result
has columns `a, b, c` with nulls exactly under the missing fields. -/
theorem claim_c5 (bs1 bs2 : List Chunk) :
    (∀ g : Bool, Transformer.transform g (IngestResult.chunkList (bs1 ++ bs2))
        = some (Transformer.transformChunks (bs1 ++ bs2)))
  ∧ (Transformer.transformChunks (bs1 ++ bs2)).cols
      = unionCols (Transformer.transformChunks bs1).cols
          (Transformer.transformChunks bs2).cols
  ∧ (∀ c : String, c ∈ (Transformer.transformChunks (bs1 ++ bs2)).cols ↔
        c ∈ (Transformer.transformChunks bs1).cols
      ∨ c ∈ (Transformer.transformChunks bs2).cols)
  ∧ (Transformer.transformChunks (bs1 ++ bs2)).rows
      = (Transformer.transformChunks bs1).rows.map
          (fun r => reindexRow (Transformer.transformChunks bs1).cols r
            (Transformer.transformChunks (bs1 ++ bs2)).cols)
        ++ (Transformer.transformChunks bs2).rows.map
          (fun r => reindexRow (Transformer.transformChunks bs2).cols r
            (Transformer.transformChunks (bs1 ++ bs2)).cols)
  ∧ Transformer.transformChunks
        [Chunk.record (JVal.obj [("a", JVal.num 1), ("b", JVal.num 2)]),
         Chunk.record (JVal.obj [("b", JVal.num 3), ("c", JVal.num 4)])]
      = ⟨["a", "b", "c"],
         [[Cell.val (JVal.num 1), Cell.val (JVal.num 2), Cell.na],
          [Cell.na, Cell.val (JVal.num 3), Cell.val (JVal.num 4)]]⟩ := by
  have e12 : Transformer.transformChunks (bs1 ++ bs2)
      = concatAll (bs1.map Transformer.chunkToDf ++ bs2.map Transformer.chunkToDf) := by
    rw [transformChunks_eq, List.map_append]
  have key := concatAll_append (bs1.map Transformer.chunkToDf)
    (bs2.map Transformer.chunkToDf)
  have hcols : (Transformer.transformChunks (bs1 ++ bs2)).cols
      = unionCols (Transformer.transformChunks bs1).cols
          (Transformer.transformChunks bs2).cols := by
    rw [e12, key, transformChunks_eq bs1, transformChunks_eq bs2]
    rfl
  refine ⟨fun g => rfl, hcols, fun c => by rw [hcols]; exact mem_unionCols, ?_, rfl⟩
  rw [e12, transformChunks_eq bs1, transformChunks_eq bs2, congrArg Table.rows key]
  rfl

/-- Claim C9: the `domainLabel` argument of `generate_bi` affects only
display text — the chart's x and y data and the entire headline string
(metric and numeric-column count included) are identical for any two domain
labels — and the `gpu_mode` argument of `transform` has no behavioural
effect at all. -/
theorem claim_c9 :
    (∀ (df : Table) (d1 d2 : String),
        (InsightEngine.generate_bi df d1).1.xs = (InsightEngine.generate_bi df d2).1.xs
      ∧ (InsightEngine.generate_bi df d1).1.ys = (InsightEngine.generate_bi df d2).1.ys
      ∧ (InsightEngine.generate_bi df d1).2 = (InsightEngine.generate_bi df d2).2)
  ∧ (∀ (g1 g2 : Bool) (chunks : IngestResult),
      Transformer.transform g1 chunks = Transformer.transform g2 chunks) := by
  constructor
  · intro df d1 d2
    cases hb : ((numericIdx df).isEmpty || df.rows.isEmpty) with
    | true =>
        rw [generate_bi_empty df d1 hb, generate_bi_empty df d2 hb]
        exact ⟨rfl, rfl, rfl⟩
    | false =>
        rw [generate_bi_pos df d1 hb, generate_bi_pos df d2 hb]
        exact ⟨rfl, rfl, rfl⟩
  · intro g1 g2 chunks
    rfl

/-- Claim C6 counterexample: on a table with one non-numeric column the
returned headline text is the fixed string `Add numbers for stats!`, which
contains no occurrence of `numeric` in either casing — the explicit
`No numeric data` indication sits in the chart title instead. -/
theorem claim_c6_counterexample :
    (InsightEngine.generate_bi ⟨["a"], [[Cell.val (JVal.str "hello")]]⟩ "generic").2
        = "Add numbers for stats!"
  ∧ ¬ List.IsInfix "numeric".toList "Add numbers for stats!".toList
  ∧ ¬ List.IsInfix "Numeric".toList "Add numbers for stats!".toList
  ∧ (InsightEngine.generate_bi ⟨["a"], [[Cell.val (JVal.str "hello")]]⟩ "generic").1.title
      = "Generic Insights: No numeric data" :=
  ⟨rfl, by decide, by decide, rfl⟩

/-- Claim C6 amended: on every table with zero numeric columns `generate_bi`
returns (without raising — it is total) a placeholder chart with empty x and
y data whose title ends in `No numeric data`, while the headline text is the
fixed prompt `Add numbers for stats!` (the no-numeric-data wording is in the
chart title, not the headline). -/
theorem claim_c6 (df : Table) (domain : String) (h : numericIdx df = []) :
    (InsightEngine.generate_bi df domain).1.xs = []
  ∧ (InsightEngine.generate_bi df domain).1.ys = []
  ∧ (∃ pre : String,
      (InsightEngine.generate_bi df domain).1.title = pre ++ "No numeric data")
  ∧ (InsightEngine.generate_bi df domain).2 = "Add numbers for stats!" := by
  have hb : ((numericIdx df).isEmpty || df.rows.isEmpty) = true := by
    simp [h]
  rw [generate_bi_empty df domain hb]
  refine ⟨rfl, rfl, ⟨pyTitle domain ++ " Insights: ", ?_⟩, rfl⟩
  rw [String.append_assoc]
  rfl

/-- Claim C6 witness: a one-column text table has no numeric column and gets
the placeholder output. -/
theorem claim_c6_witness :
    numericIdx ⟨["a"], [[Cell.val (JVal.str "x")]]⟩ = []
  ∧ (InsightEngine.generate_bi ⟨["a"], [[Cell.val (JVal.str "x")]]⟩ "retail").2
      = "Add numbers for stats!" :=
  ⟨rfl, (claim_c6 ⟨["a"], [[Cell.val (JVal.str "x")]]⟩ "retail" rfl).2.2.2⟩

/-- Claim C8 counterexample: a table whose single numeric column holds one
NaN cell (numeric subset non-empty, yet empty of values) reaches the main
branch, where the mean of means is NaN — the headline reads `Avg Mean nan`,
not the claimed default `0`. -/
theorem claim_c8_counterexample :
    (InsightEngine.generate_bi ⟨["a"], [[Cell.na]]⟩ "generic").2
        = "Key Metric: Avg Mean nan (Numerics: 1 cols)"
  ∧ (InsightEngine.generate_bi ⟨["a"], [[Cell.na]]⟩ "generic").2
      ≠ "Key Metric: Avg Mean 0.00 (Numerics: 1 cols)" :=
  ⟨rfl, by decide⟩

/-- Claim C8 amended: when the numeric subset is non-empty and the table has
rows, the headline is built from the NaN-skipping mean of the per-column
means formatted to two decimals together with the numeric-column count;
when every per-column mean is defined that metric is exactly the arithmetic
mean of the per-column means; but when every numeric column is empty of
values the metric is NaN (formatted `nan`), not the claimed default `0`. -/
theorem claim_c8 (df : Table) (domain : String)
    (h1 : numericIdx df ≠ []) (h2 : df.rows ≠ []) :
    (InsightEngine.generate_bi df domain).2
      = "Key Metric: Avg Mean "
          ++ fmtFloat (listMeanOpt ((numericIdx df).map (fun j => colMean df j)))
          ++ " (Numerics: " ++ toString (numericIdx df).length ++ " cols)"
  ∧ (∀ qs : List ℚ, (numericIdx df).map (fun j => colMean df j) = qs.map some →
      qs ≠ [] →
      listMeanOpt ((numericIdx df).map (fun j => colMean df j))
        = some (qs.sum / (qs.length : ℚ)))
  ∧ (((numericIdx df).map (fun j => colMean df j)).all Option.isNone = true →
      fmtFloat (listMeanOpt ((numericIdx df).map (fun j => colMean df j))) = "nan") := by
  have hb : ((numericIdx df).isEmpty || df.rows.isEmpty) = false := by
    simp [List.isEmpty_iff, h1, h2]
  have hmeans : (((numericIdx df).map (fun j => colMean df j)).isEmpty) = false := by
    simp [List.isEmpty_iff, List.map_eq_nil_iff, h1]
  refine ⟨?_, ?_, ?_⟩
  · rw [generate_bi_pos df domain hb]
    simp [hmeans]
  · intro qs hqs hqsne
    rw [hqs]
    have hfm : (qs.map some).filterMap id = qs := by simp
    simp only [listMeanOpt, hfm]
    simp [List.isEmpty_iff, hqsne]
  · intro hall
    have hnil : (((numericIdx df).map (fun j => colMean df j)).filterMap id) = [] := by
      rw [List.filterMap_eq_nil_iff]
      intro a ha
      exact Option.isNone_iff_eq_none.mp (List.all_eq_true.mp hall a ha)
    simp only [listMeanOpt, hnil]
    rfl

/-- Claim C8 witness: a one-row table with two numeric columns satisfies the
hypotheses and gets the headline built from the mean of means. -/
theorem claim_c8_witness :
    numericIdx ⟨["x", "y"], [[Cell.val (JVal.num 1), Cell.val (JVal.num 3)]]⟩ ≠ []
  ∧ (InsightEngine.generate_bi
        ⟨["x", "y"], [[Cell.val (JVal.num 1), Cell.val (JVal.num 3)]]⟩ "generic").2
      = "Key Metric: Avg Mean "
          ++ fmtFloat (listMeanOpt
              ((numericIdx ⟨["x", "y"], [[Cell.val (JVal.num 1), Cell.val (JVal.num 3)]]⟩).map
                (fun j => colMean
                  ⟨["x", "y"], [[Cell.val (JVal.num 1), Cell.val (JVal.num 3)]]⟩ j)))
          ++ " (Numerics: "
          ++ toString (numericIdx
              ⟨["x", "y"], [[Cell.val (JVal.num 1), Cell.val (JVal.num 3)]]⟩).length
          ++ " cols)" :=
  ⟨by decide,
   (claim_c8 ⟨["x", "y"], [[Cell.val (JVal.num 1), Cell.val (JVal.num 3)]]⟩ "generic"
     (by decide) (List.cons_ne_nil _ _)).1⟩

/-- Claim C1: on the table with numeric columns `x = [1,2,3]` and
`y = [10,20,30]`, `generate_bi` charts the per-column means `x = 2.0`,
`y = 20.0` and headlines the metric `11.00` over 2 numeric columns; and
end-to-end, the text input `{"price": 10, "qty": 2}` (parsed by the external
JSON parser into the two-field object) ingests to one batch with that one
record, normalizes to a one-row table with columns `price, qty`, and yields
means `price = 10.0`, `qty = 2.0`, headline metric `6.00` and numeric column
count 2. -/
theorem claim_c1 (parse : String → Option JVal)
    (h : parse "\x7b\"price\": 10, \"qty\": 2\x7d"
        = some (JVal.obj [("price", JVal.num 10), ("qty", JVal.num 2)])) :
    ((InsightEngine.generate_bi
        ⟨["x", "y"],
         [[Cell.val (JVal.num 1), Cell.val (JVal.num 10)],
          [Cell.val (JVal.num 2), Cell.val (JVal.num 20)],
          [Cell.val (JVal.num 3), Cell.val (JVal.num 30)]]⟩ "generic").1.xs = ["x", "y"]
      ∧ (InsightEngine.generate_bi
          ⟨["x", "y"],
           [[Cell.val (JVal.num 1), Cell.val (JVal.num 10)],
            [Cell.val (JVal.num 2), Cell.val (JVal.num 20)],
            [Cell.val (JVal.num 3), Cell.val (JVal.num 30)]]⟩ "generic").1.ys
          = [some 2, some 20]
      ∧ (InsightEngine.generate_bi
          ⟨["x", "y"],
           [[Cell.val (JVal.num 1), Cell.val (JVal.num 10)],
            [Cell.val (JVal.num 2), Cell.val (JVal.num 20)],
            [Cell.val (JVal.num 3), Cell.val (JVal.num 30)]]⟩ "generic").2
          = "Key Metric: Avg Mean 11.00 (Numerics: 2 cols)")
  ∧ (DataIngester.ingest parse
        (SourceInput.text "\x7b\"price\": 10, \"qty\": 2\x7d") 10000
        = Except.ok (IngestResult.chunkList
            [Chunk.record (JVal.obj [("price", JVal.num 10), ("qty", JVal.num 2)])])
    ∧ Transformer.transform false (IngestResult.chunkList
          [Chunk.record (JVal.obj [("price", JVal.num 10), ("qty", JVal.num 2)])])
        = some ⟨["price", "qty"], [[Cell.val (JVal.num 10), Cell.val (JVal.num 2)]]⟩
    ∧ (InsightEngine.generate_bi
          ⟨["price", "qty"], [[Cell.val (JVal.num 10), Cell.val (JVal.num 2)]]⟩
          "generic").1.xs = ["price", "qty"]
    ∧ (InsightEngine.generate_bi
          ⟨["price", "qty"], [[Cell.val (JVal.num 10), Cell.val (JVal.num 2)]]⟩
          "generic").1.ys = [some 10, some 2]
    ∧ (InsightEngine.generate_bi
          ⟨["price", "qty"], [[Cell.val (JVal.num 10), Cell.val (JVal.num 2)]]⟩
          "generic").2 = "Key Metric: Avg Mean 6.00 (Numerics: 2 cols)") := by
  have hcmA0 : colMean
      ⟨["x", "y"],
       [[Cell.val (JVal.num 1), Cell.val (JVal.num 10)],
        [Cell.val (JVal.num 2), Cell.val (JVal.num 20)],
        [Cell.val (JVal.num 3), Cell.val (JVal.num 30)]]⟩ 0 = some 2 := by
    have e : colMean
        ⟨["x", "y"],
         [[Cell.val (JVal.num 1), Cell.val (JVal.num 10)],
          [Cell.val (JVal.num 2), Cell.val (JVal.num 20)],
          [Cell.val (JVal.num 3), Cell.val (JVal.num 30)]]⟩ 0
        = some ([(1 : ℚ), 2, 3].sum / ([(1 : ℚ), 2, 3].length : ℚ)) := rfl
    rw [e]
    norm_num [List.sum_cons, List.sum_nil]
  have hcmA1 : colMean
      ⟨["x", "y"],
       [[Cell.val (JVal.num 1), Cell.val (JVal.num 10)],
        [Cell.val (JVal.num 2), Cell.val (JVal.num 20)],
        [Cell.val (JVal.num 3), Cell.val (JVal.num 30)]]⟩ 1 = some 20 := by
    have e : colMean
        ⟨["x", "y"],
         [[Cell.val (JVal.num 1), Cell.val (JVal.num 10)],
          [Cell.val (JVal.num 2), Cell.val (JVal.num 20)],
          [Cell.val (JVal.num 3), Cell.val (JVal.num 30)]]⟩ 1
        = some ([(10 : ℚ), 20, 30].sum / ([(10 : ℚ), 20, 30].length : ℚ)) := rfl
    rw [e]
    norm_num [List.sum_cons, List.sum_nil]
  have hml11 : listMeanOpt [some (2 : ℚ), some 20] = some 11 := by
    have e : listMeanOpt [some (2 : ℚ), some 20]
        = some ([(2 : ℚ), 20].sum / ([(2 : ℚ), 20].length : ℚ)) := rfl
    rw [e]
    norm_num [List.sum_cons, List.sum_nil]
  have hr11 : roundHundredths (11 : ℚ) = 1100 := by
    have e1 : (11 : ℚ).num = 11 := by norm_num
    have e2 : (11 : ℚ).den = 1 := by norm_num
    unfold roundHundredths
    rw [e1, e2]
    decide
  have hf11 : fmt2 (11 : ℚ) = "11.00" := by
    simp only [fmt2, hr11]
    decide
  have hcmB0 : colMean
      ⟨["price", "qty"], [[Cell.val (JVal.num 10), Cell.val (JVal.num 2)]]⟩ 0
      = some 10 := by
    have e : colMean
        ⟨["price", "qty"], [[Cell.val (JVal.num 10), Cell.val (JVal.num 2)]]⟩ 0
        = some ([(10 : ℚ)].sum / ([(10 : ℚ)].length : ℚ)) := rfl
    rw [e]
    norm_num [List.sum_cons, List.sum_nil]
  have hcmB1 : colMean
      ⟨["price", "qty"], [[Cell.val (JVal.num 10), Cell.val (JVal.num 2)]]⟩ 1
      = some 2 := by
    have e : colMean
        ⟨["price", "qty"], [[Cell.val (JVal.num 10), Cell.val (JVal.num 2)]]⟩ 1
        = some ([(2 : ℚ)].sum / ([(2 : ℚ)].length : ℚ)) := rfl
    rw [e]
    norm_num [List.sum_cons, List.sum_nil]
  have hml6 : listMeanOpt [some (10 : ℚ), some 2] = some 6 := by
    have e : listMeanOpt [some (10 : ℚ), some 2]
        = some ([(10 : ℚ), 2].sum / ([(10 : ℚ), 2].length : ℚ)) := rfl
    rw [e]
    norm_num [List.sum_cons, List.sum_nil]
  have hr6 : roundHundredths (6 : ℚ) = 600 := by
    have e1 : (6 : ℚ).num = 6 := by norm_num
    have e2 : (6 : ℚ).den = 1 := by norm_num
    unfold roundHundredths
    rw [e1, e2]
    decide
  have hf6 : fmt2 (6 : ℚ) = "6.00" := by
    simp only [fmt2, hr6]
    decide
  refine ⟨⟨rfl, ?_, ?_⟩, ?_, rfl, rfl, ?_, ?_⟩
  · rw [generate_bi_pos
      ⟨["x", "y"],
       [[Cell.val (JVal.num 1), Cell.val (JVal.num 10)],
        [Cell.val (JVal.num 2), Cell.val (JVal.num 20)],
        [Cell.val (JVal.num 3), Cell.val (JVal.num 30)]]⟩ "generic" rfl]
    show [colMean
        ⟨["x", "y"],
         [[Cell.val (JVal.num 1), Cell.val (JVal.num 10)],
          [Cell.val (JVal.num 2), Cell.val (JVal.num 20)],
          [Cell.val (JVal.num 3), Cell.val (JVal.num 30)]]⟩ 0,
      colMean
        ⟨["x", "y"],
         [[Cell.val (JVal.num 1), Cell.val (JVal.num 10)],
          [Cell.val (JVal.num 2), Cell.val (JVal.num 20)],
          [Cell.val (JVal.num 3), Cell.val (JVal.num 30)]]⟩ 1] = [some 2, some 20]
    rw [hcmA0, hcmA1]
  · rw [generate_bi_pos
      ⟨["x", "y"],
       [[Cell.val (JVal.num 1), Cell.val (JVal.num 10)],
        [Cell.val (JVal.num 2), Cell.val (JVal.num 20)],
        [Cell.val (JVal.num 3), Cell.val (JVal.num 30)]]⟩ "generic" rfl]
    show "Key Metric: Avg Mean "
        ++ fmtFloat (listMeanOpt
            [colMean
              ⟨["x", "y"],
               [[Cell.val (JVal.num 1), Cell.val (JVal.num 10)],
                [Cell.val (JVal.num 2), Cell.val (JVal.num 20)],
                [Cell.val (JVal.num 3), Cell.val (JVal.num 30)]]⟩ 0,
             colMean
              ⟨["x", "y"],
               [[Cell.val (JVal.num 1), Cell.val (JVal.num 10)],
                [Cell.val (JVal.num 2), Cell.val (JVal.num 20)],
                [Cell.val (JVal.num 3), Cell.val (JVal.num 30)]]⟩ 1])
        ++ " (Numerics: " ++ toString (2 : ℕ) ++ " cols)"
      = "Key Metric: Avg Mean 11.00 (Numerics: 2 cols)"
    rw [hcmA0, hcmA1, hml11]
    show "Key Metric: Avg Mean " ++ fmt2 (11 : ℚ) ++ " (Numerics: "
        ++ toString (2 : ℕ) ++ " cols)" = "Key Metric: Avg Mean 11.00 (Numerics: 2 cols)"
    rw [hf11]
    rfl
  · simp [DataIngester.ingest, h]
  · rw [generate_bi_pos
      ⟨["price", "qty"], [[Cell.val (JVal.num 10), Cell.val (JVal.num 2)]]⟩
      "generic" rfl]
    show [colMean
        ⟨["price", "qty"], [[Cell.val (JVal.num 10), Cell.val (JVal.num 2)]]⟩ 0,
      colMean
        ⟨["price", "qty"], [[Cell.val (JVal.num 10), Cell.val (JVal.num 2)]]⟩ 1]
      = [some 10, some 2]
    rw [hcmB0, hcmB1]
  · rw [generate_bi_pos
      ⟨["price", "qty"], [[Cell.val (JVal.num 10), Cell.val (JVal.num 2)]]⟩
      "generic" rfl]
    show "Key Metric: Avg Mean "
        ++ fmtFloat (listMeanOpt
            [colMean
              ⟨["price", "qty"], [[Cell.val (JVal.num 10), Cell.val (JVal.num 2)]]⟩ 0,
             colMean
              ⟨["price", "qty"], [[Cell.val (JVal.num 10), Cell.val (JVal.num 2)]]⟩ 1])
        ++ " (Numerics: " ++ toString (2 : ℕ) ++ " cols)"
      = "Key Metric: Avg Mean 6.00 (Numerics: 2 cols)"
    rw [hcmB0, hcmB1, hml6]
    show "Key Metric: Avg Mean " ++ fmt2 (6 : ℚ) ++ " (Numerics: "
        ++ toString (2 : ℕ) ++ " cols)" = "Key Metric: Avg Mean 6.00 (Numerics: 2 cols)"
    rw [hf6]
    rfl

/-- Claim C1 witness: a parser mapping the end-to-end input to the two-field
object satisfies the parse hypothesis; the pipeline headline comes out as
`Avg Mean 6.00` over 2 numeric columns. -/
theorem claim_c1_witness :
    (fun (_ : String) => some (JVal.obj [("price", JVal.num 10), ("qty", JVal.num 2)]))
        "\x7b\"price\": 10, \"qty\": 2\x7d"
      = some (JVal.obj [("price", JVal.num 10), ("qty", JVal.num 2)])
  ∧ (InsightEngine.generate_bi
        ⟨["price", "qty"], [[Cell.val (JVal.num 10), Cell.val (JVal.num 2)]]⟩
        "generic").2 = "Key Metric: Avg Mean 6.00 (Numerics: 2 cols)" :=
  ⟨rfl,
   (claim_c1 (fun _ => some (JVal.obj [("price", JVal.num 10), ("qty", JVal.num 2)]))
     rfl).2.2.2.2.2⟩
